import Mathlib

/-
Verification of the football-data-processor pipeline.

Shallow embedding of:
  - src/lambdas/event_consumer/app.py  (derive_season, process_record,
    batch_write_to_dynamodb, lambda_handler)
  - src/lambdas/event_ingest/app.py    (ensure_topic_exists, process_event,
    lambda_handler)

Python dictionaries are modelled as association lists with first-match
lookup and in-place update; JSON numbers are modelled as integers (no
claim touches fractional values); the base64 + json.loads decoding of a
Kafka record value is abstracted into the decode outcome it produces.
-/

namespace FootballData

/-- JSON values as produced by json.loads: strings, numbers, booleans,
null, arrays and objects.  Objects keep the field order of the source
text; json.loads guarantees unique keys (last wins), and all operations
below use first-match semantics on the association list. -/
inductive Json where
  | str (s : String)
  | num (n : Int)
  | bool (b : Bool)
  | null
  | arr (elems : List Json)
  | obj (fields : List (String × Json))

/-- A decoded Python dict holding the fields of a JSON object. -/
abbrev Event := List (String × Json)

/-- Python dict lookup `d.get(key)`: first matching key, none if absent. -/
def lookupKey : Event → String → Option Json
  | [], _ => none
  | (k, v) :: rest, key => if k = key then some v else lookupKey rest key

/-- Python dict lookup with default, `d.get(key, dflt)`. -/
def getD (e : Event) (key : String) (dflt : Json) : Json :=
  match lookupKey e key with
  | some v => v
  | none => dflt

/-- Python membership test `key in d`. -/
def containsKey (e : Event) (key : String) : Bool :=
  (lookupKey e key).isSome

/-- Python dict assignment `d[key] = v`: update in place if the key is
present, otherwise append at the end (insertion order). -/
def setKey : Event → String → Json → Event
  | [], key, v => [(key, v)]
  | (k, w) :: rest, key, v =>
      if k = key then (k, v) :: rest else (k, w) :: setKey rest key v

mutual
/-- Python repr() of a JSON-decoded value, as used when a non-string
value is interpolated into an f-string inside a container. -/
def pyRepr : Json → String
  | .str s => "\x27" ++ s ++ "\x27"
  | .num n => toString n
  | .bool b => if b then "True" else "False"
  | .null => "None"
  | .arr xs => "[" ++ pyReprList xs ++ "]"
  | .obj fs => "\x7b" ++ pyReprObj fs ++ "\x7d"

/-- Comma-separated repr of the elements of a Python list. -/
def pyReprList : List Json → String
  | [] => ""
  | [x] => pyRepr x
  | x :: rest => pyRepr x ++ ", " ++ pyReprList rest

/-- Comma-separated repr of the items of a Python dict. -/
def pyReprObj : List (String × Json) → String
  | [] => ""
  | [(k, v)] => "\x27" ++ k ++ "\x27: " ++ pyRepr v
  | (k, v) :: rest => "\x27" ++ k ++ "\x27: " ++ pyRepr v ++ ", " ++ pyReprObj rest
end

/-- Python str() of a JSON-decoded value, as used by f-string
interpolation: strings stay as they are, everything else via repr-style
formatting. -/
def pyStr : Json → String
  | .str s => s
  | j => pyRepr j

/-- Python str.replace for a single-character pattern, the only shape
the source uses: timestamp_str.replace(Z-char, plus-00-00).  Replaces
every occurrence, left to right. -/
def replaceCharList (pat : Char) (rep : List Char) : List Char → List Char
  | [] => []
  | c :: cs =>
      if c = pat then rep ++ replaceCharList pat rep cs
      else c :: replaceCharList pat rep cs

/-- String-level wrapper of replaceCharList. -/
def pyReplaceChar (s : String) (pat : Char) (rep : String) : String :=
  ⟨replaceCharList pat rep.data s.data⟩

/-- The datetime value datetime.fromisoformat yields, restricted to the
fields the program reads (year, month) plus the remaining validated
components. -/
structure PyDateTime where
  year : Nat
  month : Nat
  day : Nat
  hour : Nat
  minute : Nat
  second : Nat
deriving DecidableEq

/-- Numeric value of a decimal digit character. -/
def digitVal (c : Char) : Nat := c.toNat - 48

/-- Parse exactly n decimal digits into a number, returning the rest of
the input; fails when a non-digit is met or the input ends early. -/
def parseDigitsAux : Nat → Nat → List Char → Option (Nat × List Char)
  | 0, acc, cs => some (acc, cs)
  | Nat.succ n, acc, c :: cs =>
      if c.isDigit then parseDigitsAux n (acc * 10 + digitVal c) cs else none
  | Nat.succ _, _, [] => none

/-- Parse exactly n decimal digits starting from zero. -/
def parseNDigits (n : Nat) (cs : List Char) : Option (Nat × List Char) :=
  parseDigitsAux n 0 cs

/-- Consume one expected character. -/
def expectChar (c : Char) : List Char → Option (List Char)
  | d :: cs => if d = c then some cs else none
  | [] => none

/-- Consume a maximal run of decimal digits, returning how many. -/
def takeDigitsCount : List Char → Nat × List Char
  | [] => (0, [])
  | c :: cs =>
      if c.isDigit then
        let r := takeDigitsCount cs
        (r.fst + 1, r.snd)
      else (0, c :: cs)

/-- Gregorian leap-year rule, as used by the Python datetime module. -/
def isLeapYear (y : Nat) : Bool :=
  y % 4 == 0 && (y % 100 != 0 || y % 400 == 0)

/-- Number of days in a month of a given year. -/
def daysInMonth (y m : Nat) : Nat :=
  if m == 2 then (if isLeapYear y then 29 else 28)
  else if m == 4 || m == 6 || m == 9 || m == 11 then 30
  else 31

/-- Parse the HH:MM[:SS[.fff]] time-of-day part of an ISO-8601 string,
returning hour, minute, second and the unconsumed rest (fractional
seconds are validated and discarded). -/
def parseTimePart (cs : List Char) : Option (Nat × Nat × Nat × List Char) := do
  let (h, cs1) ← parseNDigits 2 cs
  let cs2 ← expectChar ':' cs1
  let (m, cs3) ← parseNDigits 2 cs2
  match cs3 with
  | ':' :: cs4 =>
      match parseNDigits 2 cs4 with
      | none => none
      | some (s, cs5) =>
          match cs5 with
          | '.' :: cs6 =>
              let r := takeDigitsCount cs6
              if r.fst = 0 then none else some (h, m, s, r.snd)
          | _ => some (h, m, s, cs5)
  | _ => some (h, m, 0, cs3)

/-- Parse and validate an optional trailing UTC-offset suffix
[+-]HH:MM[:SS[.fff]]; succeeds on empty input (a naive datetime). -/
def parseOffsetPart : List Char → Bool
  | [] => true
  | sign :: cs =>
      if sign = '+' || sign = '-' then
        match parseTimePart cs with
        | some (oh, om, os, rest) =>
            rest.isEmpty && decide (oh < 24) && decide (om < 60) && decide (os < 60)
        | none => false
      else false

/-- Embedding of datetime.fromisoformat restricted to the standard
YYYY-MM-DD[THH:MM[:SS[.fff]]][+-HH:MM] shapes the timestamps of this pipeline
use: parses and range-checks every component, yielding none exactly
when Python raises ValueError. -/
def fromisoformat (s : String) : Option PyDateTime := do
  let cs := s.data
  let (y, cs1) ← parseNDigits 4 cs
  let cs2 ← expectChar '-' cs1
  let (mo, cs3) ← parseNDigits 2 cs2
  let cs4 ← expectChar '-' cs3
  let (d, cs5) ← parseNDigits 2 cs4
  if y < 1 then none
  else if mo < 1 ∨ 12 < mo then none
  else if d < 1 ∨ daysInMonth y mo < d then none
  else
    match cs5 with
    | [] => some ⟨y, mo, d, 0, 0, 0⟩
    | sep :: cs6 =>
        if sep = 'T' ∨ sep = ' ' then
          match parseTimePart cs6 with
          | none => none
          | some (h, mi, sec, cs7) =>
              if h ≤ 23 ∧ mi ≤ 59 ∧ sec ≤ 59 then
                if parseOffsetPart cs7 then some ⟨y, mo, d, h, mi, sec⟩ else none
              else none
        else none

/-- Embedding of derive_season (event_consumer/app.py lines 29-45):
replace Z by a UTC offset, parse, and bucket August-July; any parse
failure is caught and yields "unknown". -/
def derive_season (timestamp_str : String) : String :=
  match fromisoformat (pyReplaceChar timestamp_str 'Z' "+00:00") with
  | some dt =>
      if dt.month < 8 then Nat.repr (dt.year - 1) ++ "/" ++ Nat.repr dt.year
      else Nat.repr dt.year ++ "/" ++ Nat.repr (dt.year + 1)
  | none => "unknown"

/-- derive_season as applied to the raw value of the timestamp field:
calling .replace on a non-string raises AttributeError inside
the try block of derive_season, which the except arm turns into the string unknown. -/
def deriveSeasonOfValue : Json → String
  | .str s => derive_season s
  | _ => "unknown"

/-- Outcome of reading the value of a consumed Kafka record: the record may
lack the value key, the base64 + json.loads decode may raise, or it
yields a JSON value.  The byte-level decoding itself is abstracted into
this outcome. -/
inductive KafkaRecord where
  | noValue
  | badValue
  | value (decoded : Json)

/-- Backfill step of process_record (lines 68-70): copy timestamp into
event_timestamp when the latter is absent. -/
def backfillEventTimestamp (e : Event) : Event :=
  if containsKey e "timestamp" && !containsKey e "event_timestamp" then
    setKey e "event_timestamp" (getD e "timestamp" Json.null)
  else e

/-- Season step of process_record (lines 62-66): read timestamp with
default, derive the season, and store it on the event. -/
def seasonedEvent (event : Event) : Event :=
  setKey event "season"
    (Json.str (deriveSeasonOfValue (getD event "timestamp" (Json.str ""))))

/-- The event after the season and backfill mutations, just before the
composite key is attached. -/
def midEvent (event : Event) : Event :=
  backfillEventTimestamp (seasonedEvent event)

/-- Enrichment body of process_record (lines 58-78): read event_type
from the incoming event with default, derive and store season, backfill
event_timestamp, then store the composite event_type_timestamp built by
f-string interpolation from event_type and the post-backfill
event_timestamp. -/
def enrichEvent (event : Event) : Event :=
  setKey (midEvent event) "event_type_timestamp"
    (Json.str (pyStr (getD event "event_type" (Json.str "unknown")) ++ "#" ++
      pyStr (getD (midEvent event) "event_timestamp" (Json.str ""))))

/-- Embedding of process_record (lines 47-82): a record without a value
key falls through to return None; a decode failure is caught and
returns None; a decoded non-object raises on .get and is likewise
caught; a decoded object is enriched and returned. -/
def process_record : KafkaRecord → Option Event
  | .value (Json.obj event) => some (enrichEvent event)
  | _ => none

/-- Primary key of the DynamoDB table: match_id (partition) and
event_timestamp (sort). -/
abbrev StoreKey := String × String

/-- Contents of the DynamoDB table: one item per primary key. -/
abbrev Store := List (StoreKey × Event)

/-- Primary-key attributes of an item: both must be present and of
string type, otherwise the service rejects the put with a validation
error. -/
def itemKey (item : Event) : Option StoreKey :=
  match lookupKey item "match_id", lookupKey item "event_timestamp" with
  | some (Json.str m), some (Json.str t) => some (m, t)
  | _, _ => none

/-- DynamoDB put_item semantics on the table contents: the item at the
same primary key, if any, is overwritten. -/
def putStore (db : Store) (k : StoreKey) (item : Event) : Store :=
  db.filter (fun entry => decide (entry.fst ≠ k)) ++ [(k, item)]

/-- One put_item call: a validation failure (missing or non-string key
attribute) raises, otherwise the keyed overwrite happens. -/
def putItem (db : Store) (item : Event) : Except String Store :=
  match itemKey item with
  | none => Except.error "ValidationException"
  | some k => Except.ok (putStore db k item)

/-- Sequential puts issued by the batch writer; an error carries the
table contents at the moment the exception is raised (earlier puts have
already been flushed). -/
def writeSeq : List Event → Store → Except Store Store
  | [], db => Except.ok db
  | item :: rest, db =>
      match itemKey item with
      | none => Except.error db
      | some k => writeSeq rest (putStore db k item)

/-- True when every put in the sequence succeeds. -/
def writeOk (items : List Event) (db : Store) : Bool :=
  match writeSeq items db with
  | Except.ok _ => true
  | Except.error _ => false

/-- Embedding of batch_write_to_dynamodb (lines 84-107).  The fault
parameter injects the behaviour of the environment: none means the batched
write raises no external exception; some n means the service raises
after the first n items were already flushed (batch_writer chunks by
25, so earlier chunks may persist).  An empty list returns 0 without
touching the table; any exception is caught and 0 is returned with the
table as the partial flushes left it; otherwise every item was written
and the count is the full length. -/
def batch_write_to_dynamodb (items : List Event) (db : Store) (fault : Option Nat) :
    Nat × Store :=
  if items.isEmpty then (0, db)
  else
    match fault with
    | some n =>
        match writeSeq (items.take n) db with
        | Except.ok db2 => (0, db2)
        | Except.error db2 => (0, db2)
    | none =>
        match writeSeq items db with
        | Except.ok db2 => (items.length, db2)
        | Except.error db2 => (0, db2)

/-- The response dict the consumer handler returns on success; body
models the message field of the JSON body. -/
structure HandlerResponse where
  statusCode : Nat
  body : String
deriving DecidableEq

/-- The MSK event source payload: an optional records mapping from
partition identifier to the records of that partition, in iteration
order. -/
structure ConsumerEvent where
  records : Option (List (String × List KafkaRecord))

/-- Flattening and per-record processing loop of lambda_handler (lines
129-137): partitions in mapping order, records in arrival order, and
only records for which process_record returns an event are collected. -/
def processedItems (parts : List (String × List KafkaRecord)) : List Event :=
  ((parts.map Prod.snd).flatten).filterMap process_record

/-- total_records of lambda_handler: the record count before any
dropping. -/
def totalRecords (parts : List (String × List KafkaRecord)) : Nat :=
  (parts.map (fun pr => pr.snd.length)).sum

/-- success_count as lambda_handler computes it (lines 123, 140-141):
it stays 0 when no items survived processing, otherwise it is the count
batch_write_to_dynamodb returns. -/
def consumerSuccessCount (parts : List (String × List KafkaRecord)) (db : Store)
    (fault : Option Nat) : Nat :=
  let items := processedItems parts
  if items.isEmpty then 0 else (batch_write_to_dynamodb items db fault).fst

/-- The table contents after the write phase of lambda_handler. -/
def consumerStoreAfter (parts : List (String × List KafkaRecord)) (db : Store)
    (fault : Option Nat) : Store :=
  let items := processedItems parts
  if items.isEmpty then db else (batch_write_to_dynamodb items db fault).snd

/-- Embedding of the consumer lambda_handler (lines 111-166): process
the records mapping if present, then raise when success_count differs
from total_records (triggering redelivery of the whole batch) and
return a 200 response when they match.  A missing records mapping
leaves both counts at 0 and returns 200. -/
def consumer_lambda_handler (ev : ConsumerEvent) (db : Store) (fault : Option Nat) :
    Except String HandlerResponse × Store :=
  match ev.records with
  | none => (Except.ok ⟨200, "0 records processed successfully"⟩, db)
  | some parts =>
      if consumerSuccessCount parts db fault ≠ totalRecords parts then
        (Except.error ("Processed " ++ Nat.repr (consumerSuccessCount parts db fault) ++
          " out of " ++ Nat.repr (totalRecords parts) ++ " records successfully"),
         consumerStoreAfter parts db fault)
      else
        (Except.ok ⟨200, Nat.repr (consumerSuccessCount parts db fault) ++
          " records processed successfully"⟩,
         consumerStoreAfter parts db fault)

/-- True exactly on the error (raising) outcome. -/
def reportsFailure (r : Except String HandlerResponse) : Bool :=
  match r with
  | Except.error _ => true
  | Except.ok _ => false

/-- Outcome of json.loads on the raw request body string: either it
raises (malformed) or it yields a JSON value.  The character-level
parse is abstracted into this outcome. -/
inductive RawBody where
  | malformed (raw : String)
  | wellFormed (parsed : Json)

/-- The API Gateway event as the producer handler reads it: an optional
raw body. -/
structure ApiGatewayEvent where
  body : Option RawBody

/-- The response dict of the producer path; body models the message
field of the JSON body. -/
structure IngestResponse where
  statusCode : Nat
  message : String
deriving DecidableEq

/-- Environment of the producer path: the jsonschema validation verdict
(schema.json is packaged next to the handler, outside src), the
combined producer-construction-and-publish outcome, and the uuid drawn
for a missing event_id. -/
structure IngestDeps where
  validate : Json → Bool
  publish : Json → Except String Unit
  newEventId : String

/-- Python truthiness of a decoded JSON value, as used by the
`if not match_id` guard. -/
def pyTruthy : Option Json → Bool
  | none => false
  | some (Json.str s) => !(s == "")
  | some (Json.num n) => !(n == 0)
  | some (Json.bool b) => b
  | some Json.null => false
  | some (Json.arr xs) => !xs.isEmpty
  | some (Json.obj fs) => !fs.isEmpty

/-- Embedding of process_event (event_ingest/app.py lines 146-212):
schema validation, the falsy match_id guard, event_id backfill, publish
with acknowledgment wait; every exception inside is caught and mapped
to a 500 response.  A decoded non-object reaching body.get raises
AttributeError, which the same except arm turns into a 500. -/
def ingest_process_event (deps : IngestDeps) (body : Json) : IngestResponse :=
  if !(deps.validate body) then ⟨400, "Invalid event format"⟩
  else
    match body with
    | Json.obj fields =>
        if !(pyTruthy (lookupKey fields "match_id")) then ⟨400, "match_id is required"⟩
        else
          let fields2 :=
            if containsKey fields "event_id" then fields
            else setKey fields "event_id" (Json.str deps.newEventId)
          match deps.publish (Json.obj fields2) with
          | Except.ok _ => ⟨200, "Event published successfully"⟩
          | Except.error e => ⟨500, "Error publishing event: " ++ e⟩
    | _ => ⟨500, "Error publishing event: AttributeError"⟩

/-- Embedding of the producer lambda_handler (lines 215-248): a missing
body yields 400; json.loads runs inside the own try block of the handler,
so a body that fails to parse raises there and the generic except arm
returns a 500 response; a parsed body is handed to process_event. -/
def ingest_lambda_handler (deps : IngestDeps) (ev : ApiGatewayEvent) : IngestResponse :=
  match ev.body with
  | none => ⟨400, "Missing request body"⟩
  | some (RawBody.malformed _) => ⟨500, "Error processing request: Expecting value"⟩
  | some (RawBody.wellFormed body) => ingest_process_event deps body

/-- Errors the Kafka admin client can raise on create_topics. -/
inductive KafkaError where
  | topicAlreadyExists
  | other (msg : String)

/-- Two-snapshot model of the broker as seen by one call of
ensure_topic_exists under concurrency: the topic set returned by
list_topics, the topic set at the instant create_topics executes (a
concurrent creator may have added topics in between), and injected
failures unrelated to existence (connectivity, permission) for each of
the two admin calls. -/
structure KafkaBroker where
  topicsAtList : List String
  topicsAtCreate : List String
  listError : Option String
  createError : Option String

/-- create_topics against the broker: an unrelated injected failure
raises as such; creating a topic that meanwhile exists raises
TopicAlreadyExistsError; otherwise the topic is appended. -/
def create_topics (b : KafkaBroker) (name : String) : Except KafkaError (List String) :=
  match b.createError with
  | some m => Except.error (KafkaError.other m)
  | none =>
      if name ∈ b.topicsAtCreate then Except.error KafkaError.topicAlreadyExists
      else Except.ok (b.topicsAtCreate ++ [name])

/-- Embedding of ensure_topic_exists (event_ingest/app.py lines 52-98):
list the topics, create only when the pre-check misses, treat a
TopicAlreadyExistsError from the creation race as success, and re-raise
everything else.  On success the final broker topic set is returned;
when the topic already existed no insertion happens, so that set is the
create-instant snapshot unchanged. -/
def ensure_topic_exists (b : KafkaBroker) (topic_name : String) :
    Except String (List String) :=
  match b.listError with
  | some m => Except.error m
  | none =>
      if topic_name ∈ b.topicsAtList then Except.ok b.topicsAtCreate
      else
        match create_topics b topic_name with
        | Except.ok ts => Except.ok ts
        | Except.error KafkaError.topicAlreadyExists => Except.ok b.topicsAtCreate
        | Except.error (KafkaError.other m) => Except.error m

/-- Number of stored items carrying a given primary key. -/
def countKey (db : Store) (k : StoreKey) : Nat :=
  (db.filter (fun entry => decide (entry.fst = k))).length

/-- The timestamp field is absent, of non-string type (so .replace
raises), or fails to parse after the Z replacement: every case in which
the except arm of derive_season fires. -/
def timestampUnparsable (e : Event) : Prop :=
  match lookupKey e "timestamp" with
  | some (Json.str s) => fromisoformat (pyReplaceChar s 'Z' "+00:00") = none
  | some _ => True
  | none => True

/-- A well-formed goal event as the unit tests submit it. -/
def sampleItem : Event :=
  [("match_id", Json.str "match-123"),
   ("event_timestamp", Json.str "2023-08-15T14:30:00Z"),
   ("event_type", Json.str "goal")]

/-- Primary key of sampleItem. -/
def sampleKey : StoreKey := ("match-123", "2023-08-15T14:30:00Z")

/-- A well-formed decoded goal event as the unit tests submit it. -/
def sampleEvent : Event :=
  [("match_id", Json.str "match-123"),
   ("event_type", Json.str "goal"),
   ("timestamp", Json.str "2023-08-15T14:30:00Z")]

/-- A decoded event whose timestamp is not a parsable ISO-8601 string. -/
def badTsEvent : Event :=
  [("match_id", Json.str "match-9"),
   ("event_type", Json.str "goal"),
   ("timestamp", Json.str "not-a-timestamp")]

/-- A consumed record that decodes to a well-formed goal event. -/
def goodRecordC1 : KafkaRecord := KafkaRecord.value (Json.obj sampleEvent)

/-- A consumed record whose value fails to decode. -/
def badRecordC1 : KafkaRecord := KafkaRecord.badValue

/-- A consumer invocation whose single partition holds one decodable
and one undecodable record. -/
def batchC1 : ConsumerEvent :=
  ⟨some [("football-events-0", [goodRecordC1, badRecordC1])]⟩

/-- Producer environment in which everything downstream of body parsing
succeeds. -/
def depsC8 : IngestDeps :=
  ⟨fun _ => true, fun _ => Except.ok (), "generated-event-id"⟩

/-- Broker snapshot for a creation race: the pre-check misses, but by
the time create_topics runs a concurrent producer has created the
topic. -/
def brokerRace : KafkaBroker := ⟨[], ["football-events"], none, none⟩

theorem lookupKey_setKey_self (e : Event) (k : String) (v : Json) :
    lookupKey (setKey e k v) k = some v := by
  induction e with
  | nil => simp [setKey, lookupKey]
  | cons hd tl ih =>
      obtain ⟨a, b⟩ := hd
      by_cases hak : a = k
      · simp [setKey, hak, lookupKey]
      · simp [setKey, hak, lookupKey, ih]

theorem lookupKey_setKey_ne (e : Event) (k key : String) (v : Json) (h : key ≠ k) :
    lookupKey (setKey e k v) key = lookupKey e key := by
  have hk : ¬ k = key := fun hh => h hh.symm
  induction e with
  | nil =>
      simp only [setKey, lookupKey]
      rw [if_neg hk]
  | cons hd tl ih =>
      obtain ⟨a, b⟩ := hd
      simp only [setKey]
      by_cases hak : a = k
      · subst hak
        rw [if_pos rfl]
        simp only [lookupKey]
        rw [if_neg hk, if_neg hk]
      · rw [if_neg hak]
        simp only [lookupKey]
        by_cases hakey : a = key
        · rw [if_pos hakey, if_pos hakey]
        · rw [if_neg hakey, if_neg hakey]
          exact ih

theorem containsKey_setKey_ne (e : Event) (k key : String) (v : Json) (h : key ≠ k) :
    containsKey (setKey e k v) key = containsKey e key := by
  unfold containsKey
  rw [lookupKey_setKey_ne e k key v h]

theorem lookupKey_backfill_ne (e : Event) (key : String) (h : key ≠ "event_timestamp") :
    lookupKey (backfillEventTimestamp e) key = lookupKey e key := by
  unfold backfillEventTimestamp
  split
  · rw [lookupKey_setKey_ne e "event_timestamp" key _ h]
  · rfl

theorem backfill_of_absent (e : Event)
    (h1 : containsKey e "timestamp" = true)
    (h2 : containsKey e "event_timestamp" = false) :
    backfillEventTimestamp e = setKey e "event_timestamp" (getD e "timestamp" Json.null) := by
  unfold backfillEventTimestamp
  rw [h1, h2]
  rfl

theorem backfill_of_present (e : Event)
    (h2 : containsKey e "event_timestamp" = true) :
    backfillEventTimestamp e = e := by
  unfold backfillEventTimestamp
  rw [h2]
  simp

/-- Claim C3: for every timestamp string the embedded fromisoformat can
parse, derive_season yields the previous-year/current-year bucket for
months 1..7 and the current-year/next-year bucket for months 8..12. -/
theorem derive_season_rule (s : String) (dt : PyDateTime)
    (h : fromisoformat (pyReplaceChar s 'Z' "+00:00") = some dt) :
    (1 ≤ dt.month ∧ dt.month ≤ 7 →
        derive_season s = Nat.repr (dt.year - 1) ++ "/" ++ Nat.repr dt.year) ∧
    (8 ≤ dt.month ∧ dt.month ≤ 12 →
        derive_season s = Nat.repr dt.year ++ "/" ++ Nat.repr (dt.year + 1)) := by
  unfold derive_season
  rw [h]
  constructor
  · rintro ⟨h1, h2⟩
    have hm : dt.month < 8 := by omega
    simp [hm]
  · rintro ⟨h1, h2⟩
    have hm : ¬ dt.month < 8 := by omega
    simp [hm]

/-- Witness for C3 at the two boundary instants of the spec. -/
theorem derive_season_rule_witness :
    derive_season "2023-07-31T23:59:59Z" = "2022/2023" ∧
    derive_season "2023-08-01T00:00:00Z" = "2023/2024" := by
  constructor
  · exact ((derive_season_rule "2023-07-31T23:59:59Z" ⟨2023, 7, 31, 23, 59, 59⟩ rfl).1
      (by constructor <;> decide)).trans rfl
  · exact ((derive_season_rule "2023-08-01T00:00:00Z" ⟨2023, 8, 1, 0, 0, 0⟩ rfl).2
      (by constructor <;> decide)).trans rfl

/-- Claim C4: on every event process_record returns whose event_type
and event_timestamp fields are strings, the derived
event_type_timestamp field is exactly event_type, then one hash
character, then event_timestamp. -/
theorem process_record_composite_key (r : KafkaRecord) (out : Event) (et ets : String)
    (hr : process_record r = some out)
    (htype : lookupKey out "event_type" = some (Json.str et))
    (hts : lookupKey out "event_timestamp" = some (Json.str ets)) :
    lookupKey out "event_type_timestamp" = some (Json.str (et ++ "#" ++ ets)) := by
  cases r with
  | noValue => simp [process_record] at hr
  | badValue => simp [process_record] at hr
  | value j =>
      cases j with
      | str s => simp [process_record] at hr
      | num n => simp [process_record] at hr
      | bool b => simp [process_record] at hr
      | null => simp [process_record] at hr
      | arr xs => simp [process_record] at hr
      | obj e =>
          simp only [process_record, Option.some.injEq] at hr
          subst hr
          have hmid : lookupKey (midEvent e) "event_timestamp" = some (Json.str ets) := by
            rw [← hts]
            unfold enrichEvent
            rw [lookupKey_setKey_ne _ _ _ _ (by decide)]
          have htype2 : getD e "event_type" (Json.str "unknown") = Json.str et := by
            have h1 : lookupKey e "event_type" = some (Json.str et) := by
              rw [← htype]
              unfold enrichEvent midEvent seasonedEvent
              rw [lookupKey_setKey_ne _ _ _ _ (by decide),
                lookupKey_backfill_ne _ _ (by decide),
                lookupKey_setKey_ne _ _ _ _ (by decide)]
            unfold getD
            rw [h1]
          have hts2 : getD (midEvent e) "event_timestamp" (Json.str "") = Json.str ets := by
            unfold getD
            rw [hmid]
          unfold enrichEvent
          rw [lookupKey_setKey_self, htype2, hts2]
          rfl

/-- Witness for C4 on the sample goal event. -/
theorem process_record_composite_key_witness :
    lookupKey (enrichEvent sampleEvent) "event_type_timestamp" =
      some (Json.str "goal#2023-08-15T14:30:00Z") :=
  (process_record_composite_key (KafkaRecord.value (Json.obj sampleEvent))
    (enrichEvent sampleEvent) "goal" "2023-08-15T14:30:00Z" rfl rfl rfl).trans rfl

/-- Claim C6: enrichment backfills event_timestamp from timestamp when
the decoded event lacks it, and leaves an already-present
event_timestamp unchanged. -/
theorem process_record_event_timestamp_rule (e out : Event)
    (hr : process_record (KafkaRecord.value (Json.obj e)) = some out) :
    (∀ ts, lookupKey e "timestamp" = some ts → lookupKey e "event_timestamp" = none →
        lookupKey out "event_timestamp" = some ts) ∧
    (∀ v, lookupKey e "event_timestamp" = some v →
        lookupKey out "event_timestamp" = some v) := by
  simp only [process_record, Option.some.injEq] at hr
  subst hr
  constructor
  · intro ts hts hno
    have h1 : lookupKey (seasonedEvent e) "timestamp" = some ts := by
      unfold seasonedEvent
      rw [lookupKey_setKey_ne _ _ _ _ (by decide)]
      exact hts
    have h2 : containsKey (seasonedEvent e) "timestamp" = true := by
      unfold containsKey
      rw [h1]
      rfl
    have h3 : containsKey (seasonedEvent e) "event_timestamp" = false := by
      unfold containsKey seasonedEvent
      rw [lookupKey_setKey_ne _ _ _ _ (by decide), hno]
      rfl
    have h4 : midEvent e =
        setKey (seasonedEvent e) "event_timestamp" (getD (seasonedEvent e) "timestamp" Json.null) := by
      unfold midEvent
      exact backfill_of_absent _ h2 h3
    have h5 : getD (seasonedEvent e) "timestamp" Json.null = ts := by
      unfold getD
      rw [h1]
    unfold enrichEvent
    rw [lookupKey_setKey_ne _ _ _ _ (by decide), h4, lookupKey_setKey_self, h5]
  · intro v hv
    have h1 : lookupKey (seasonedEvent e) "event_timestamp" = some v := by
      unfold seasonedEvent
      rw [lookupKey_setKey_ne _ _ _ _ (by decide)]
      exact hv
    have h2 : containsKey (seasonedEvent e) "event_timestamp" = true := by
      unfold containsKey
      rw [h1]
      rfl
    have h4 : midEvent e = seasonedEvent e := by
      unfold midEvent
      exact backfill_of_present _ h2
    unfold enrichEvent
    rw [lookupKey_setKey_ne _ _ _ _ (by decide), h4, h1]

/-- Witness for C6 on the sample goal event, which carries a timestamp
and no event_timestamp. -/
theorem process_record_event_timestamp_rule_witness :
    lookupKey (enrichEvent sampleEvent) "event_timestamp" =
      some (Json.str "2023-08-15T14:30:00Z") :=
  (process_record_event_timestamp_rule sampleEvent (enrichEvent sampleEvent) rfl).1
    (Json.str "2023-08-15T14:30:00Z") rfl rfl

theorem deriveSeason_unknown_of_unparsable (e : Event) (h : timestampUnparsable e) :
    deriveSeasonOfValue (getD e "timestamp" (Json.str "")) = "unknown" := by
  unfold timestampUnparsable at h
  cases hl : lookupKey e "timestamp" with
  | none =>
      unfold getD
      rw [hl]
      rfl
  | some v =>
      rw [hl] at h
      cases v with
      | str s =>
          have h2 : fromisoformat (pyReplaceChar s 'Z' "+00:00") = none := h
          unfold getD
          rw [hl]
          show derive_season s = "unknown"
          unfold derive_season
          rw [h2]
      | num n =>
          unfold getD
          rw [hl]
          rfl
      | bool b =>
          unfold getD
          rw [hl]
          rfl
      | null =>
          unfold getD
          rw [hl]
          rfl
      | arr xs =>
          unfold getD
          rw [hl]
          rfl
      | obj fs =>
          unfold getD
          rw [hl]
          rfl

/-- Claim C7: a decoded event whose timestamp is absent or unparsable
is still enriched (season becomes "unknown"), process_record returns
it, and it reaches the bulk-write list. -/
theorem process_record_season_unknown_nonfatal (e : Event) (h : timestampUnparsable e) :
    process_record (KafkaRecord.value (Json.obj e)) = some (enrichEvent e) ∧
    lookupKey (enrichEvent e) "season" = some (Json.str "unknown") ∧
    processedItems [("partition-0", [KafkaRecord.value (Json.obj e)])] = [enrichEvent e] := by
  refine ⟨rfl, ?_, ?_⟩
  · unfold enrichEvent
    rw [lookupKey_setKey_ne _ _ _ _ (by decide)]
    unfold midEvent
    rw [lookupKey_backfill_ne _ _ (by decide)]
    unfold seasonedEvent
    rw [deriveSeason_unknown_of_unparsable e h]
    exact lookupKey_setKey_self _ _ _
  · simp [processedItems, process_record]

/-- Witness for C7 on the event with an unparsable timestamp. -/
theorem process_record_season_unknown_nonfatal_witness :
    lookupKey (enrichEvent badTsEvent) "season" = some (Json.str "unknown") :=
  (process_record_season_unknown_nonfatal badTsEvent rfl).2.1

theorem filter_key_of_filter_ne (db : Store) (k : StoreKey) :
    (db.filter (fun e => decide (e.fst ≠ k))).filter (fun e => decide (e.fst = k)) = [] := by
  induction db with
  | nil => rfl
  | cons hd tl ih =>
      by_cases h : hd.fst = k
      · simp [List.filter_cons, h, ih]
      · simp [List.filter_cons, h, ih]

theorem countKey_putStore (db : Store) (k : StoreKey) (item : Event) :
    countKey (putStore db k item) k = 1 := by
  unfold countKey putStore
  rw [List.filter_append, filter_key_of_filter_ne]
  simp [List.filter_cons]

/-- Claim C5: putting the same item under the same primary key twice
leaves exactly one stored item with that key, not two. -/
theorem put_item_idempotent_overwrite (db db1 db2 : Store) (item : Event) (k : StoreKey)
    (hk : itemKey item = some k)
    (h1 : putItem db item = Except.ok db1)
    (h2 : putItem db1 item = Except.ok db2) :
    countKey db2 k = 1 := by
  unfold putItem at h1 h2
  rw [hk] at h1 h2
  simp only [Except.ok.injEq] at h1 h2
  subst h1
  subst h2
  exact countKey_putStore _ _ _

/-- Witness for C5 on the sample stored item. -/
theorem put_item_idempotent_overwrite_witness :
    countKey (putStore (putStore [] sampleKey sampleItem) sampleKey sampleItem) sampleKey = 1 :=
  put_item_idempotent_overwrite [] (putStore [] sampleKey sampleItem)
    (putStore (putStore [] sampleKey sampleItem) sampleKey sampleItem) sampleItem sampleKey
    rfl rfl rfl

/-- Claim C10: batch_write_to_dynamodb reports either 0 or the full
item count, never an intermediate value: the full count when the write
raises no exception, 0 on an empty list, and 0 on any exception even
when earlier chunks were already flushed into the table. -/
theorem batch_write_zero_or_all (items : List Event) (db : Store) (fault : Option Nat) :
    ((batch_write_to_dynamodb items db fault).fst = 0 ∨
      (batch_write_to_dynamodb items db fault).fst = items.length) ∧
    (items = [] → batch_write_to_dynamodb items db fault = (0, db)) ∧
    (∀ n, fault = some n → (batch_write_to_dynamodb items db fault).fst = 0) ∧
    (fault = none → writeOk items db = true →
      (batch_write_to_dynamodb items db fault).fst = items.length) := by
  refine ⟨?_, ?_, ?_, ?_⟩
  · unfold batch_write_to_dynamodb
    cases hi : items.isEmpty with
    | true => simp
    | false =>
        cases fault with
        | some n => cases hw : writeSeq (items.take n) db <;> simp [hw]
        | none => cases hw : writeSeq items db <;> simp [hw]
  · intro h
    subst h
    simp [batch_write_to_dynamodb]
  · intro n hf
    subst hf
    unfold batch_write_to_dynamodb
    cases hi : items.isEmpty with
    | true => simp
    | false => cases hw : writeSeq (items.take n) db <;> simp [hw]
  · intro hf hw
    subst hf
    unfold writeOk at hw
    unfold batch_write_to_dynamodb
    cases hi : items.isEmpty with
    | true =>
        have hnil : items = [] := by
          cases items with
          | nil => rfl
          | cons a l => simp at hi
        subst hnil
        simp
    | false =>
        cases hs : writeSeq items db with
        | ok db2 => simp
        | error db2 =>
            rw [hs] at hw
            simp at hw

/-- Witness for C10: a one-item batch with no exception returns count 1
and stores the item. -/
theorem batch_write_zero_or_all_witness :
    (batch_write_to_dynamodb [sampleItem] [] none).fst = 1 :=
  (batch_write_zero_or_all [sampleItem] [] none).2.2.2 rfl rfl

/-- Claim C2: for an invocation with a records mapping, the handler
acknowledges (no raise, statusCode 200) exactly when the bulk-write
success count equals the total record count taken before dropping, and
any mismatch makes it raise for whole-batch redelivery. -/
theorem consumer_ack_iff_counts (parts : List (String × List KafkaRecord)) (db : Store)
    (fault : Option Nat) :
    (reportsFailure (consumer_lambda_handler ⟨some parts⟩ db fault).fst = false ↔
        consumerSuccessCount parts db fault = totalRecords parts) ∧
    (∀ resp, (consumer_lambda_handler ⟨some parts⟩ db fault).fst = Except.ok resp →
        resp.statusCode = 200) := by
  constructor
  · constructor
    · intro hok
      by_contra hne
      simp only [consumer_lambda_handler] at hok
      rw [if_pos hne] at hok
      simp [reportsFailure] at hok
    · intro heq
      simp only [consumer_lambda_handler]
      rw [if_neg (not_not_intro heq)]
      rfl
  · intro resp hresp
    simp only [consumer_lambda_handler] at hresp
    by_cases h : consumerSuccessCount parts db fault ≠ totalRecords parts
    · rw [if_pos h] at hresp
      exact absurd hresp (by simp)
    · rw [if_neg h] at hresp
      simp only [Except.ok.injEq] at hresp
      rw [← hresp]

/-- Witness for C2: a single undecodable record gives success count 0
against total 1, so the invocation raises. -/
theorem consumer_ack_iff_counts_witness :
    reportsFailure (consumer_lambda_handler ⟨some [("p0", [KafkaRecord.badValue])]⟩ [] none).fst
      = true := by
  have h := (consumer_ack_iff_counts [("p0", [KafkaRecord.badValue])] [] none).1
  cases hc : reportsFailure ((consumer_lambda_handler
      ⟨some [("p0", [KafkaRecord.badValue])]⟩ [] none).fst) with
  | false => exact absurd (h.mp hc) (by decide)
  | true => rfl

/-- Claim C1 as amended: with one decodable and one undecodable record
in the batch and a healthy table, the invocation raises (so the batch
is redelivered) but the successfully decoded record has already been
persisted: the store ends with that one item written, not with zero
items. -/
theorem consumer_decode_failure_persists_good_item
    (p : String) (good bad : KafkaRecord) (item : Event) (k : StoreKey) (db : Store)
    (hg : process_record good = some item) (hb : process_record bad = none)
    (hk : itemKey item = some k) :
    reportsFailure (consumer_lambda_handler ⟨some [(p, [good, bad])]⟩ db none).fst = true ∧
    (consumer_lambda_handler ⟨some [(p, [good, bad])]⟩ db none).snd = putStore db k item := by
  have hitems : processedItems [(p, [good, bad])] = [item] := by
    simp [processedItems, hg, hb]
  have hbw : batch_write_to_dynamodb [item] db none = ([item].length, putStore db k item) := by
    unfold batch_write_to_dynamodb
    simp [writeSeq, hk]
  have hsc : consumerSuccessCount [(p, [good, bad])] db none = 1 := by
    unfold consumerSuccessCount
    rw [hitems]
    simp [hbw]
  have hsa : consumerStoreAfter [(p, [good, bad])] db none = putStore db k item := by
    unfold consumerStoreAfter
    rw [hitems]
    simp [hbw]
  have htot : totalRecords [(p, [good, bad])] = 2 := rfl
  constructor
  · simp only [consumer_lambda_handler]
    rw [hsc, htot, if_pos (by decide)]
    rfl
  · simp only [consumer_lambda_handler]
    rw [hsc, htot, hsa, if_pos (by decide)]

/-- Counterexample to C1 as stated: on the concrete two-record batch
with one decode failure, the invocation does report failure, but one
item (the decoded goal event) is stored, not zero. -/
theorem consumer_decode_failure_counterexample :
    reportsFailure (consumer_lambda_handler batchC1 [] none).fst = true ∧
    (consumer_lambda_handler batchC1 [] none).snd.length = 1 :=
  ⟨rfl, rfl⟩

/-- Witness for the amended C1 on the concrete batch. -/
theorem consumer_decode_failure_persists_good_item_witness :
    reportsFailure (consumer_lambda_handler
        ⟨some [("football-events-0", [goodRecordC1, badRecordC1])]⟩ [] none).fst = true :=
  (consumer_decode_failure_persists_good_item "football-events-0" goodRecordC1 badRecordC1
    (enrichEvent sampleEvent) ("match-123", "2023-08-15T14:30:00Z") [] rfl rfl rfl).1

/-- Claim C8 as amended: a present but unparsable request body raises
inside the own try block of the handler, so the producer returns a 500
server-error response, not a 400 client error. -/
theorem ingest_malformed_body_returns_500 (deps : IngestDeps) (raw : String) :
    ingest_lambda_handler deps ⟨some (RawBody.malformed raw)⟩ =
      ⟨500, "Error processing request: Expecting value"⟩ :=
  rfl

/-- Counterexample to C8 as stated: a concrete malformed body yields
statusCode 500, not the claimed 400. -/
theorem ingest_malformed_body_counterexample :
    (ingest_lambda_handler depsC8 ⟨some (RawBody.malformed "not json")⟩).statusCode = 500 ∧
    (ingest_lambda_handler depsC8 ⟨some (RawBody.malformed "not json")⟩).statusCode ≠ 400 := by
  constructor
  · rfl
  · decide

/-- Claim C9: ensure_topic_exists succeeds without raising whenever the
topic already exists — observed by the pre-check listing or via a
creation race surfacing TopicAlreadyExistsError — leaving the broker
topic set unchanged, while failures unrelated to existence propagate
from either admin call. -/
theorem ensure_topic_exists_treats_exists_as_success (b : KafkaBroker) (name : String) :
    (b.listError = none → name ∈ b.topicsAtList →
        ensure_topic_exists b name = Except.ok b.topicsAtCreate) ∧
    (b.listError = none → b.createError = none → name ∈ b.topicsAtCreate →
        ensure_topic_exists b name = Except.ok b.topicsAtCreate) ∧
    (∀ m, b.listError = some m → ensure_topic_exists b name = Except.error m) ∧
    (∀ m, b.listError = none → name ∉ b.topicsAtList → b.createError = some m →
        ensure_topic_exists b name = Except.error m) := by
  refine ⟨?_, ?_, ?_, ?_⟩
  · intro hl hmem
    simp [ensure_topic_exists, hl, hmem]
  · intro hl hc hmem
    by_cases hpre : name ∈ b.topicsAtList
    · simp [ensure_topic_exists, hl, hpre]
    · simp [ensure_topic_exists, create_topics, hl, hc, hpre, hmem]
  · intro m hl
    simp [ensure_topic_exists, hl]
  · intro m hl hpre hc
    simp [ensure_topic_exists, create_topics, hl, hpre, hc]

/-- Witness for C9 on the creation-race broker snapshot. -/
theorem ensure_topic_exists_treats_exists_as_success_witness :
    ensure_topic_exists brokerRace "football-events" = Except.ok ["football-events"] :=
  (ensure_topic_exists_treats_exists_as_success brokerRace "football-events").2.1
    rfl rfl (by decide)

end FootballData
